import Mathlib

/-!
Verification of the epub2tts concurrent pipeline orchestration layer.

This file gives a shallow embedding of the progress event bus
(src/ui/progress_tracker.py), the degrading synthesis backend
(src/pipelines/tts_pipeline.py, class MLXKokoroModel), the batch runners
(KokoroTTSPipeline.batch_process and
ImageDescriptionPipeline.batch_process_images) and the orchestrator
(src/pipelines/orchestrator.py, PipelineOrchestrator.process_epub_complete),
and proves or refutes the stated behavioural properties.

Conventions of the embedding:
  * Python ints are modelled as Int, float timestamps and percentages as ℚ.
  * Python dict payloads are modelled as structures of Option fields, so the
    source checks of the form (key in event.data) become Option matches.
  * A dict of custom counters is an association list; dict.update is an
    upsert fold (last write wins per key).
  * External collaborators (the actual inference call, the file system, the
    cache, PIL) are oracle parameters; the control flow around them is
    translated from the source.
  * The background consumer thread is modelled by draining a list of queued
    events in FIFO order, which matches the single-consumer design.
-/

/-! # Event and stats model (src/ui/progress_tracker.py) -/

/-- EventType enum from progress_tracker.py. -/
inductive EventType where
  | start
  | progress
  | complete
  | error
  | info
  | warning
deriving DecidableEq, Repr

/-- PipelineType enum from progress_tracker.py. -/
inductive PipelineType where
  | tts
  | image
  | epub
  | overall
deriving DecidableEq, Repr

/-- The loosely typed event payload dict; each Option field models the
presence or absence of the corresponding key in event.data. -/
structure EventData where
  total_items : Option Int := none
  completed_items : Option Int := none
  current_item : Option String := none
  custom_stats : Option (List (String × Int)) := none
  error_message : Option String := none
  action : Option String := none
deriving DecidableEq, Repr

/-- ProgressEvent from progress_tracker.py (the derived event_id string is
omitted: it is never read by the tracker). -/
structure ProgressEvent where
  pipeline : PipelineType
  event_type : EventType
  data : EventData
  timestamp : ℚ := 0
deriving DecidableEq, Repr

/-- Python dict.update for association lists: every key of the update list
overwrites or extends the base dict (last write wins per key). -/
def dict_update (base upd : List (String × Int)) : List (String × Int) :=
  upd.foldl (fun acc kv =>
    if acc.any (fun p => p.1 = kv.1) then
      acc.map (fun p => if p.1 = kv.1 then (p.1, kv.2) else p)
    else
      acc ++ [kv]) base

/-- PipelineStats dataclass from progress_tracker.py. -/
structure PipelineStats where
  total_items : Int := 0
  completed_items : Int := 0
  current_item : String := ""
  start_time : ℚ := 0
  last_update : ℚ := 0
  errors : Int := 0
  warnings : Int := 0
  custom_stats : List (String × Int) := []
deriving DecidableEq, Repr

/-- PipelineStats.progress_percentage: 0.0 when total_items == 0, otherwise
min(100.0, completed / total * 100.0). -/
def PipelineStats.progress_percentage (s : PipelineStats) : ℚ :=
  if s.total_items = 0 then 0
  else min 100 (((s.completed_items : ℚ) / (s.total_items : ℚ)) * 100)

/-- Event dispatch of ProgressTracker._update_stats, without the trailing
custom_stats merge (factored out so the two stages compose). -/
def apply_event_core (s : PipelineStats) (e : ProgressEvent) : PipelineStats :=
  match e.event_type with
  | .start =>
      let s1 := match e.data.total_items with
        | some n => { s with total_items := n }
        | none => s
      match e.data.current_item with
      | some c => { s1 with current_item := c }
      | none => s1
  | .progress =>
      let s1 := match e.data.completed_items with
        | some n => { s with completed_items := n }
        | none => s
      let s2 := match e.data.current_item with
        | some c => { s1 with current_item := c }
        | none => s1
      match e.data.total_items with
      | some n => { s2 with total_items := n }
      | none => s2
  | .complete =>
      let s1 := match e.data.current_item with
        | some _ => { s with current_item := "" }
        | none => s
      { s1 with completed_items := s1.completed_items + 1 }
  | .error => { s with errors := s.errors + 1 }
  | .warning => { s with warnings := s.warnings + 1 }
  | .info => s

/-- ProgressTracker._update_stats for one pipeline: stamp last_update, apply
the per-kind update, then merge custom counters if the key is present. -/
def update_stats (s : PipelineStats) (e : ProgressEvent) : PipelineStats :=
  let s1 := apply_event_core { s with last_update := e.timestamp } e
  match e.data.custom_stats with
  | some cs => { s1 with custom_stats := dict_update s1.custom_stats cs }
  | none => s1

/-- The per-pipeline stats map owned by the tracker. -/
def StatsMap : Type := PipelineType → PipelineStats

/-- Fresh stats map, as built in ProgressTracker.__init__. -/
def init_stats_map : StatsMap := fun _ => {}

/-- Apply one event to the stats map entry of its pipeline. -/
def update_stats_map (m : StatsMap) (e : ProgressEvent) : StatsMap :=
  fun p => if p = e.pipeline then update_stats (m e.pipeline) e else m p

/-- The sentinel test of ProgressTracker._process_events. -/
def is_shutdown_event (e : ProgressEvent) : Bool :=
  e.pipeline = PipelineType.overall && e.event_type = EventType.info &&
    e.data.action = some "shutdown"

/-- ProgressTracker._process_events, restricted to its effect on the stats
map: drain the queued events in FIFO order, stopping at a shutdown
sentinel. -/
def process_events (m : StatsMap) : List ProgressEvent → StatsMap
  | [] => m
  | e :: es =>
      if is_shutdown_event e then m
      else process_events (update_stats_map m e) es

/-- create_start_event helper from progress_tracker.py. -/
def create_start_event (pipeline : PipelineType) (total_items : Int)
    (current_item : String := "") (ts : ℚ := 0) : ProgressEvent :=
  { pipeline := pipeline, event_type := .start,
    data := { total_items := some total_items, current_item := some current_item },
    timestamp := ts }

/-- create_progress_event helper from progress_tracker.py. -/
def create_progress_event (pipeline : PipelineType) (completed_items : Int)
    (current_item : String := "") (ts : ℚ := 0) : ProgressEvent :=
  { pipeline := pipeline, event_type := .progress,
    data := { completed_items := some completed_items,
              current_item := some current_item },
    timestamp := ts }

/-- create_complete_event helper from progress_tracker.py. -/
def create_complete_event (pipeline : PipelineType)
    (current_item : String := "") (ts : ℚ := 0) : ProgressEvent :=
  { pipeline := pipeline, event_type := .complete,
    data := { current_item := some current_item },
    timestamp := ts }

/-- create_error_event helper from progress_tracker.py. -/
def create_error_event (pipeline : PipelineType) (error_message : String)
    (current_item : String := "") (ts : ℚ := 0) : ProgressEvent :=
  { pipeline := pipeline, event_type := .error,
    data := { error_message := some error_message,
              current_item := some current_item },
    timestamp := ts }

/-! # Degrading synthesis backend (src/pipelines/tts_pipeline.py, MLXKokoroModel) -/

/-- Whether the list p is a leading segment of the list l (character lists). -/
def char_list_starts_with : List Char → List Char → Bool
  | _, [] => true
  | [], _ :: _ => false
  | c :: cs, n :: ns => c = n && char_list_starts_with cs ns

/-- Whether needle occurs as a contiguous segment of hay; models the Python
test (needle in hay) on strings. -/
def char_list_contains (needle : List Char) : List Char → Bool
  | [] => char_list_starts_with [] needle
  | c :: rest => char_list_starts_with (c :: rest) needle || char_list_contains needle rest

/-- Python substring test (needle in hay). -/
def str_contains (hay needle : String) : Bool :=
  char_list_contains needle.data hay.data

/-- The recognized Metal framework error signatures from
MLXKokoroModel._handle_metal_error. -/
def metal_keywords : List String :=
  ["MTLCommandBuffer", "Metal", "failed assertion", "Completed handler", "commit call"]

/-- Recognition test: any(keyword in error_str for keyword in metal_keywords). -/
def is_metal_error (error_str : String) : Bool :=
  metal_keywords.any (fun k => str_contains error_str k)

/-- The mutable backend fields of MLXKokoroModel that the degradation logic
reads and writes. -/
structure MState where
  degradation_level : Nat := 0
  metal_error_count : Nat := 0
  use_mlx_audio : Bool := true
  max_retries : Nat := 3
deriving DecidableEq, Repr

/-- Fresh backend state as set at the end of MLXKokoroModel.__init__:
degradation_level = 0, metal_error_count = 0, max_retries = 3; whether the
MLX-Audio fallback import was taken decides use_mlx_audio. -/
def init_mlx_state (use_mlx : Bool) : MState :=
  { degradation_level := 0, metal_error_count := 0,
    use_mlx_audio := use_mlx, max_retries := 3 }

/-- Result of one call to _handle_metal_error: the boolean return value of
the source, plus the case in which the method itself raises. -/
inductive HandleOutcome where
  | handled
  | unhandled
  | raisedUnavailable
deriving DecidableEq, Repr

/-- MLXKokoroModel._handle_metal_error: on a recognized signature increment
metal_error_count; raise once the count reaches 3, otherwise set
degradation_level to 1 and disable MLX-Audio and return True; on an
unrecognized error return False. The resource cleanup call has no effect on
these fields. -/
def handle_metal_error (s : MState) (error_str : String) : HandleOutcome × MState :=
  if is_metal_error error_str then
    let s1 := { s with metal_error_count := s.metal_error_count + 1 }
    if s1.metal_error_count ≥ 3 then
      (.raisedUnavailable, s1)
    else
      (.handled, { s1 with degradation_level := 1, use_mlx_audio := false })
  else
    (.unhandled, s)

/-- The degradation levels of the specification, ordered by capability. -/
inductive DegLevel where
  | primary
  | safeFallback
  | unavailable
deriving DecidableEq, Repr

/-- Rank of a level in the order Primary ≤ SafeFallback ≤ Unavailable. -/
def DegLevel.rank : DegLevel → Nat
  | .primary => 0
  | .safeFallback => 1
  | .unavailable => 2

/-- The observable level of a backend state: once metal_error_count has
reached 3 every further recognized fault raises (Unavailable); otherwise
degradation_level 0 is the accelerated Primary path and any higher value is
the CPU-only SafeFallback path. -/
def level_of (s : MState) : DegLevel :=
  if s.metal_error_count ≥ 3 then .unavailable
  else if s.degradation_level = 0 then .primary
  else .safeFallback

/-- Which synthesis path one loop iteration of MLXKokoroModel.synthesize
takes, translated from its if/elif chain. -/
inductive SynthMethod where
  | mlxAudio
  | directKokoro
  | raiseAllFailed
deriving DecidableEq, Repr

/-- The method selection chain at the top of the synthesize try block. -/
def choose_method (s : MState) (attempt : Nat) : SynthMethod :=
  if s.degradation_level = 0 ∧ s.use_mlx_audio = false then .directKokoro
  else if attempt = 0 ∧ s.degradation_level = 0 ∧ s.use_mlx_audio = true then .mlxAudio
  else if s.degradation_level ≤ 1 then .directKokoro
  else .raiseAllFailed

/-- Terminal outcome of one synthesize call. -/
inductive SynthResult where
  | ok (audio : Nat)
  | failedAfter (msg : String)
  | unavailableErr (msg : String)
  | unexpectedEnd
deriving DecidableEq, Repr

/-- Observable trace of one synthesize call: its outcome, the final backend
state, how many loop iterations issued a synthesis attempt, how many of
those were consumed by a degradation transition (handled Metal error with
continue), how many were ordinary failures, and the recorded backoff sleeps
in seconds. -/
structure SynthTrace where
  result : SynthResult
  state : MState
  attempts_made : Nat
  degraded_attempts : Nat
  plain_failures : Nat
  sleeps : List Nat
deriving DecidableEq, Repr

/-- The retry loop body of MLXKokoroModel.synthesize. The oracle gives the
outcome of the external synthesis call at each attempt index (audio sample
count or the text of the raised exception); fuel is the number of loop
iterations remaining, attempt the current loop index. The raiseAllFailed
branch raises inside the try block, so its message enters the same except
handler as an external failure. -/
def synth_aux (oracle : Nat → Except String Nat) (max_retries : Nat) :
    Nat → Nat → MState → SynthTrace
  | 0, _, s =>
      { result := .unexpectedEnd, state := s, attempts_made := 0,
        degraded_attempts := 0, plain_failures := 0, sleeps := [] }
  | fuel + 1, attempt, s =>
      let outcome :=
        match choose_method s attempt with
        | .raiseAllFailed => Except.error "All TTS methods failed"
        | _ => oracle attempt
      match outcome with
      | .ok audio =>
          { result := .ok audio, state := s, attempts_made := 1,
            degraded_attempts := 0, plain_failures := 0, sleeps := [] }
      | .error e =>
          match handle_metal_error s e with
          | (.raisedUnavailable, s1) =>
              { result := .unavailableErr "Too many Metal framework errors, TTS unavailable",
                state := s1, attempts_made := 1, degraded_attempts := 0,
                plain_failures := 0, sleeps := [] }
          | (.handled, s1) =>
              let t := synth_aux oracle max_retries fuel (attempt + 1) s1
              { t with attempts_made := t.attempts_made + 1,
                       degraded_attempts := t.degraded_attempts + 1 }
          | (.unhandled, s1) =>
              if attempt = max_retries then
                { result := .failedAfter ("TTS synthesis failed after " ++
                    toString (max_retries + 1) ++ " attempts: " ++ e),
                  state := s1, attempts_made := 1, degraded_attempts := 0,
                  plain_failures := 1, sleeps := [] }
              else
                let t := synth_aux oracle max_retries fuel (attempt + 1) s1
                { t with attempts_made := t.attempts_made + 1,
                         plain_failures := t.plain_failures + 1,
                         sleeps := 2 ^ attempt :: t.sleeps }

/-- MLXKokoroModel.synthesize: run the loop for attempt in
range(max_retries + 1) from attempt 0. -/
def synthesize (s : MState) (oracle : Nat → Except String Nat) : SynthTrace :=
  synth_aux oracle s.max_retries (s.max_retries + 1) 0 s

/-- Backend states after each call of a sequence of synthesize calls, each
call driven by its own attempt oracle. -/
def run_synth_calls : MState → List (Nat → Except String Nat) → List MState
  | _, [] => []
  | s, o :: os =>
      let s1 := (synthesize s o).state
      s1 :: run_synth_calls s1 os

/-- The observed degradation levels of one backend instance over a sequence
of synthesize calls, starting with the initial level. -/
def level_trace (s : MState) (os : List (Nat → Except String Nat)) : List DegLevel :=
  (s :: run_synth_calls s os).map level_of

/-! # Batch runners (KokoroTTSPipeline.batch_process and
ImageDescriptionPipeline.batch_process_images) -/

/-- TTSResult dataclass from tts_pipeline.py (audio duration in samples
divided by the sample rate is kept abstract as a rational). -/
structure TTSResult where
  success : Bool
  audio_path : Option String := none
  duration : ℚ := 0
  sample_rate : Int := 22050
  text_processed : String := ""
  error_message : Option String := none
  processing_time : ℚ := 0
deriving DecidableEq, Repr

/-- One entry of the text_chunks list handed to batch_process: a dict with a
text value and an optional id value. -/
structure Chunk where
  id : Option String := none
  text : String := ""
deriving DecidableEq, Repr

/-- KokoroTTSPipeline.process_chunk. The text preprocessing and the
synthesis call are external collaborators, passed as oracles: preprocess is
_preprocess_text and synth is the model synthesize call returning the audio
sample count or the raised error text. File writing and event emission are
side effects without influence on the returned TTSResult. -/
def process_chunk (is_initialized : Bool) (preprocess : String → String)
    (synth : String → Except String Nat) (sample_rate : Int)
    (text : String) (output_path : String) (chunk_id : String) : TTSResult :=
  if is_initialized = false then
    { success := false, sample_rate := 22050,
      error_message := some "TTS model not initialized" }
  else
    let processed := preprocess text
    if processed.trim = "" then
      { success := false, sample_rate := 22050,
        error_message := some "Empty text after preprocessing" }
    else
      match synth processed with
      | .ok audio_len =>
          { success := true, audio_path := some output_path,
            duration := (audio_len : ℚ) / (sample_rate : ℚ),
            sample_rate := sample_rate, text_processed := processed }
      | .error e =>
          { success := false, sample_rate := 22050,
            error_message := some ("TTS processing failed for chunk " ++
              chunk_id ++ ": " ++ e) }

/-- The per-chunk work of batch_process: derive the chunk id (falling back
to the submission index), build the output path and run process_chunk. -/
def batch_item (is_initialized : Bool) (preprocess : String → String)
    (synth : String → Except String Nat) (sample_rate : Int)
    (output_dir output_format : String) (i : Nat) (chunk : Chunk) : TTSResult :=
  let chunk_id := chunk.id.getD ("chunk_" ++ toString i)
  process_chunk is_initialized preprocess synth sample_rate chunk.text
    (output_dir ++ "/" ++ chunk_id ++ "." ++ output_format) chunk_id

/-- KokoroTTSPipeline.batch_process. In parallel mode one task per chunk is
submitted to the pool and results are appended in completion order, given
here by the order list (a permutation of the submission indices); in
sequential mode the chunks are processed in list order. An uninitialized
pipeline returns the empty list (that guard is unreachable from the
constructor, which raises instead of leaving is_initialized false). -/
def batch_process (is_initialized force_sequential : Bool)
    (preprocess : String → String) (synth : String → Except String Nat)
    (sample_rate : Int) (output_dir output_format : String)
    (text_chunks : List Chunk) (parallel : Bool)
    (order : List (Fin text_chunks.length)) : List TTSResult :=
  if is_initialized = false then []
  else
    let run := fun (i : Nat) (c : Chunk) =>
      batch_item is_initialized preprocess synth sample_rate output_dir
        output_format i c
    if parallel ∧ 1 < text_chunks.length ∧ force_sequential = false then
      order.map (fun i => run i.val (text_chunks.get i))
    else
      (List.finRange text_chunks.length).map (fun i => run i.val (text_chunks.get i))

/-- ImageDescription dataclass from image_pipeline.py. -/
structure ImageDescription where
  image_path : String
  description : String
  context : String := ""
  confidence : ℚ := 0
  processing_time : ℚ := 0
  model_used : String := ""
  cache_hit : Bool := false
deriving DecidableEq, Repr

/-- ImageProcessingResult dataclass from image_pipeline.py. -/
structure ImageProcessingResult where
  success : Bool
  descriptions : List ImageDescription
  total_images : Int
  processed_images : Int
  cache_hits : Int
  total_processing_time : ℚ := 0
  error_message : Option String := none
deriving DecidableEq, Repr

/-- One entry of the image_list handed to batch_process_images: a dict with
a file_path value and an optional context value. -/
structure ImageInfo where
  file_path : String
  context : Option String := none
deriving DecidableEq, Repr

/-- ImageDescriptionPipeline.process_image. The cache lookup, image loading
and VLM call are external collaborators folded into the describe oracle;
the enclosing except handler of the source turns any raised error into an
error-marked ImageDescription, so one description is returned on every
path. -/
def process_image (describe : String → String → Except String ImageDescription)
    (image_path context : String) : ImageDescription :=
  match describe image_path context with
  | .ok d => d
  | .error e =>
      { image_path := image_path,
        description := "Error processing image: " ++ e,
        context := context, confidence := 0, model_used := "error" }

/-- ImageDescriptionPipeline.batch_process_images. With description disabled
in the configuration the call returns immediately with no descriptions;
otherwise each image is processed, in pool completion order (the order
permutation) when parallel and more than one image, else sequentially. -/
def batch_process_images (enabled : Bool)
    (describe : String → String → Except String ImageDescription)
    (image_list : List ImageInfo) (parallel : Bool)
    (order : List (Fin image_list.length)) : ImageProcessingResult :=
  if enabled = false then
    { success := true, descriptions := [],
      total_images := (image_list.length : Int), processed_images := 0,
      cache_hits := 0 }
  else
    let run := fun (info : ImageInfo) =>
      process_image describe info.file_path (info.context.getD "")
    let descriptions :=
      if parallel ∧ 1 < image_list.length then
        order.map (fun i => run (image_list.get i))
      else
        image_list.map run
    { success := true, descriptions := descriptions,
      total_images := (image_list.length : Int),
      processed_images := ((descriptions.filter (fun d => 0 < d.confidence)).length : Int),
      cache_hits := ((descriptions.filter (fun d => d.cache_hit)).length : Int) }

/-! # Orchestrator (src/pipelines/orchestrator.py) -/

/-- Chapter record from core/text_cleaner.py, reduced to the fields the
orchestrator reads. -/
structure Chapter where
  chapter_num : Int := 1
  title : String := ""
  content : String := ""
  word_count : Int := 0
deriving DecidableEq, Repr

/-- ProcessingResult from core/epub_processor.py, reduced to the fields the
orchestrator reads. -/
structure ProcessingResult where
  success : Bool
  text_content : String := ""
  chapters : List Chapter := []
  image_info : List ImageInfo := []
  error_message : Option String := none
deriving DecidableEq, Repr

/-- PipelineResult dataclass from orchestrator.py. The tts_results dict is
kept abstract as the summary value produced by the TTS stage. -/
structure PipelineResult where
  epub_processing : ProcessingResult
  tts_results : Option (List TTSResult) := none
  image_descriptions : Option (List ImageDescription) := none
  total_processing_time : ℚ := 0
  pipeline_stages : List (String × ℚ) := []
deriving DecidableEq, Repr

/-- Outcome dict of the _process_images_parallel and
_generate_tts_audio_parallel wrappers: a success flag and the stage
payload. -/
structure StageOutcome (α : Type) where
  success : Bool
  payload : α
deriving DecidableEq, Repr

/-- PipelineOrchestrator.process_epub_complete, with the extraction outcome
given as input and the two sub-pipeline stages as oracles. The returned
list of stage names records which parallel tasks were submitted to the
executor, so that the failure path provably attempts no work. Timings are
kept abstract through the ts parameter. -/
def process_epub_complete (epub_result : ProcessingResult)
    (image_pipeline_available tts_pipeline_available : Bool)
    (enable_tts enable_images : Bool)
    (image_stage : List ImageInfo → StageOutcome (List ImageDescription))
    (tts_stage : List Chapter → StageOutcome (List TTSResult))
    (integrate : ProcessingResult → List ImageDescription → ProcessingResult)
    (ts : ℚ) : PipelineResult × List String :=
  if epub_result.success = false then
    ({ epub_processing := epub_result,
       tts_results := none,
       image_descriptions := none,
       total_processing_time := ts,
       pipeline_stages := [("epub_processing", ts)] }, [])
  else
    let submit_images := enable_images ∧ image_pipeline_available = true ∧
      epub_result.image_info ≠ []
    let submit_tts := enable_tts ∧ tts_pipeline_available = true
    let submitted :=
      (if submit_images then ["images"] else []) ++
      (if submit_tts then ["tts"] else [])
    let image_descriptions :=
      if submit_images then
        let r := image_stage epub_result.image_info
        if r.success then r.payload else []
      else []
    let tts_results :=
      if submit_tts then
        let r := tts_stage epub_result.chapters
        if r.success then some r.payload else none
      else none
    let epub_final :=
      if image_descriptions ≠ [] then integrate epub_result image_descriptions
      else epub_result
    ({ epub_processing := epub_final,
       tts_results := tts_results,
       image_descriptions := some image_descriptions,
       total_processing_time := ts,
       pipeline_stages := [("epub_processing", ts)] }, submitted)

/-! # Subscriber notification (ProgressTracker._notify_subscribers) -/

/-- A registered subscriber: its callback behaviour (none models the
callback raising on that event) and the events it has observed so far. -/
structure Subscriber where
  callback : ProgressEvent → Option Unit
  received : List ProgressEvent := []

/-- One callback invocation inside the for loop of _notify_subscribers: the
try/except around the call swallows a raised exception, so a raising
callback records nothing and the loop carries on. -/
def notify_one (e : ProgressEvent) (sub : Subscriber) : Subscriber :=
  match sub.callback e with
  | some _ => { sub with received := sub.received ++ [e] }
  | none => sub

/-- ProgressTracker._notify_subscribers: the subscriber list is copied under
the lock and every subscriber is then invoked in registration order. -/
def notify_subscribers (subs : List Subscriber) (e : ProgressEvent) : List Subscriber :=
  subs.map (notify_one e)

/-- Delivery of a whole queue of events through the consumer loop, in FIFO
order. -/
def deliver_events (subs : List Subscriber) (es : List ProgressEvent) : List Subscriber :=
  es.foldl notify_subscribers subs

/-! # Stats snapshot copying (ProgressTracker.get_stats), with an explicit
heap so that aliasing between the snapshot and the tracker state is
observable -/

/-- A PipelineStats object on the Python heap: its scalar fields inline and
its custom_stats dict held by reference. -/
structure StatsObj where
  total_items : Int := 0
  completed_items : Int := 0
  current_item : String := ""
  start_time : ℚ := 0
  last_update : ℚ := 0
  errors : Int := 0
  warnings : Int := 0
  custom_ref : Nat
deriving DecidableEq, Repr

/-- A heap of stats objects and dicts, with bump allocation. -/
structure Heap where
  stats_objs : Nat → Option StatsObj
  dicts : Nat → Option (List (String × Int))
  next_stats : Nat
  next_dict : Nat

/-- Allocate a fresh dict holding the entries d. -/
def alloc_dict (h : Heap) (d : List (String × Int)) : Heap × Nat :=
  ({ h with
      dicts := fun a => if a = h.next_dict then some d else h.dicts a,
      next_dict := h.next_dict + 1 },
   h.next_dict)

/-- Allocate a fresh stats object. -/
def alloc_stats (h : Heap) (o : StatsObj) : Heap × Nat :=
  ({ h with
      stats_objs := fun a => if a = h.next_stats then some o else h.stats_objs a,
      next_stats := h.next_stats + 1 },
   h.next_stats)

/-- Overwrite the stats object stored at an address. -/
def write_stats (h : Heap) (addr : Nat) (o : StatsObj) : Heap :=
  { h with stats_objs := fun a => if a = addr then some o else h.stats_objs a }

/-- Overwrite the dict stored at an address. -/
def write_dict (h : Heap) (addr : Nat) (d : List (String × Int)) : Heap :=
  { h with dicts := fun a => if a = addr then some d else h.dicts a }

/-- ProgressTracker.get_stats: under the lock, build a new PipelineStats
object carrying copies of all scalar fields and a shallow copy of the
custom_stats dict, and hand its address to the caller. Returns none only on
a dangling address, which the tracker never produces. -/
def get_stats (h : Heap) (internal : Nat) : Option (Heap × Nat) :=
  match h.stats_objs internal with
  | none => none
  | some o =>
      match h.dicts o.custom_ref with
      | none => none
      | some d =>
          let hd := alloc_dict h d
          let hs := alloc_stats hd.1 { o with custom_ref := hd.2 }
          some (hs.1, hs.2)

/-- A field mutation a caller can perform on a PipelineStats object it
holds, including writes into its custom_stats dict. -/
inductive MutOp where
  | set_total (n : Int)
  | set_completed (n : Int)
  | set_current (c : String)
  | set_start (t : ℚ)
  | set_last (t : ℚ)
  | set_errors (n : Int)
  | set_warnings (n : Int)
  | dict_set (k : String) (v : Int)
deriving DecidableEq, Repr

/-- Apply one mutation to the object at the given address (a no-op on a
dangling address, which cannot arise for the snapshot address). -/
def apply_mut (h : Heap) (addr : Nat) (op : MutOp) : Heap :=
  match h.stats_objs addr with
  | none => h
  | some o =>
      match op with
      | .set_total n => write_stats h addr { o with total_items := n }
      | .set_completed n => write_stats h addr { o with completed_items := n }
      | .set_current c => write_stats h addr { o with current_item := c }
      | .set_start t => write_stats h addr { o with start_time := t }
      | .set_last t => write_stats h addr { o with last_update := t }
      | .set_errors n => write_stats h addr { o with errors := n }
      | .set_warnings n => write_stats h addr { o with warnings := n }
      | .dict_set k v =>
          match h.dicts o.custom_ref with
          | none => h
          | some d => write_dict h o.custom_ref (dict_update d [(k, v)])

/-- Apply a sequence of mutations to the object at the given address. -/
def apply_muts (h : Heap) (addr : Nat) (ops : List MutOp) : Heap :=
  ops.foldl (fun acc op => apply_mut acc addr op) h

/-! # Shared lemmas about the event bus update -/

/-- A Complete event adds one to completed_items, leaves total_items alone,
and clears current_item whenever the payload carries a current_item key. -/
lemma update_stats_complete (s : PipelineStats) (e : ProgressEvent)
    (he : e.event_type = EventType.complete) :
    (update_stats s e).completed_items = s.completed_items + 1 ∧
    (update_stats s e).total_items = s.total_items ∧
    (∀ c, e.data.current_item = some c → (update_stats s e).current_item = "") := by
  unfold update_stats apply_event_core
  rw [he]
  cases hc : e.data.current_item <;> cases hcs : e.data.custom_stats <;> simp [hc, hcs]

/-- A Complete event is never the shutdown sentinel. -/
lemma complete_not_shutdown (e : ProgressEvent)
    (he : e.event_type = EventType.complete) :
    is_shutdown_event e = false := by
  simp [is_shutdown_event, he]

/-- Draining a queue of Complete events for pipeline p adds their number to
completed_items and leaves total_items unchanged. -/
lemma process_events_completes (p : PipelineType) :
    ∀ (es : List ProgressEvent) (m : StatsMap),
      (∀ e ∈ es, e.pipeline = p ∧ e.event_type = EventType.complete) →
      (process_events m es p).completed_items =
        (m p).completed_items + (es.length : Int) ∧
      (process_events m es p).total_items = (m p).total_items := by
  intro es
  induction es with
  | nil => intro m _; simp [process_events]
  | cons e es ih =>
    intro m h
    have he := h e (List.mem_cons_self _ _)
    have hshut := complete_not_shutdown e he.2
    have hup := update_stats_complete (m p) e he.2
    have hmap : update_stats_map m e p = update_stats (m p) e := by
      unfold update_stats_map
      rw [he.1]
      simp
    obtain ⟨hc, ht⟩ := ih (update_stats_map m e) (fun x hx => h x (List.mem_cons_of_mem _ hx))
    rw [process_events, hshut]
    simp only [Bool.false_eq_true, if_false]
    refine ⟨?_, ?_⟩
    · rw [hc, hmap, hup.1]
      simp only [List.length_cons]
      push_cast
      ring
    · rw [ht, hmap, hup.2.1]

/-- The stats entry of pipeline p right after a fresh tracker processed a
start event for p with total n and label item. -/
lemma start_event_fields (p : PipelineType) (n : Int) (item : String) (ts : ℚ) :
    (update_stats_map init_stats_map (create_start_event p n item ts) p).completed_items = 0 ∧
    (update_stats_map init_stats_map (create_start_event p n item ts) p).total_items = n := by
  simp [update_stats_map, update_stats, apply_event_core, create_start_event, init_stats_map]

/-- A start event is never the shutdown sentinel. -/
lemma start_not_shutdown (p : PipelineType) (n : Int) (item : String) (ts : ℚ) :
    is_shutdown_event (create_start_event p n item ts) = false := by
  simp [is_shutdown_event, create_start_event]

/-! # Claim C1 (stats consistency after draining) -/

/-- C1, counterexample: a pipeline that received Start with total 1 followed
by two Complete events ends with completedItems = 2 above totalItems = 1,
so the claimed invariant fails for this event sequence. -/
theorem stats_consistency_cex :
    (process_events init_stats_map
      [create_start_event PipelineType.tts 1,
       create_complete_event PipelineType.tts,
       create_complete_event PipelineType.tts] PipelineType.tts).total_items = 1 ∧
    (process_events init_stats_map
      [create_start_event PipelineType.tts 1,
       create_complete_event PipelineType.tts,
       create_complete_event PipelineType.tts] PipelineType.tts).completed_items = 2 ∧
    ¬((process_events init_stats_map
      [create_start_event PipelineType.tts 1,
       create_complete_event PipelineType.tts,
       create_complete_event PipelineType.tts] PipelineType.tts).completed_items ≤
      (process_events init_stats_map
      [create_start_event PipelineType.tts 1,
       create_complete_event PipelineType.tts,
       create_complete_event PipelineType.tts] PipelineType.tts).total_items) := by
  decide

/-- C1, amended: Complete events are purely additive, so after a Start event
with total n the invariant completedItems ≤ totalItems holds exactly for
those drained sequences of Complete events whose number does not exceed n;
with more Complete events than the announced total the counter passes the
total. -/
theorem stats_consistency_amended (p : PipelineType) (n : Int) (item : String)
    (ts : ℚ) (es : List ProgressEvent)
    (hes : ∀ e ∈ es, e.pipeline = p ∧ e.event_type = EventType.complete)
    (hcount : (es.length : Int) ≤ n) :
    (process_events init_stats_map (create_start_event p n item ts :: es) p).completed_items ≤
    (process_events init_stats_map (create_start_event p n item ts :: es) p).total_items := by
  rw [process_events, start_not_shutdown]
  simp only [Bool.false_eq_true, if_false]
  obtain ⟨hc, ht⟩ := process_events_completes p es
    (update_stats_map init_stats_map (create_start_event p n item ts)) hes
  obtain ⟨h0, hn⟩ := start_event_fields p n item ts
  rw [hc, ht, h0, hn]
  omega

/-- C1, witness for the amended claim at a concrete sequence: Start with
total 2 followed by one Complete event keeps completedItems below the
total. -/
theorem stats_consistency_amended_witness :
    (process_events init_stats_map
      (create_start_event PipelineType.tts 2 "b" 0 ::
        [create_complete_event PipelineType.tts "c" 0]) PipelineType.tts).completed_items ≤
    (process_events init_stats_map
      (create_start_event PipelineType.tts 2 "b" 0 ::
        [create_complete_event PipelineType.tts "c" 0]) PipelineType.tts).total_items :=
  stats_consistency_amended PipelineType.tts 2 "b" 0
    [create_complete_event PipelineType.tts "c" 0] (by decide) (by decide)

/-! # Claim C8 (Complete is additive and the Start-then-10-Completes
scenario) -/

/-- C8: one Complete event clears current_item whenever the payload names
one and always increments completedItems by exactly one, independently of
prior Progress events; in particular Start with total 10 followed by ten
Complete events yields completedItems 10 and progress 100 percent. -/
theorem complete_event_additive :
    (∀ (s : PipelineStats) (e : ProgressEvent),
      e.event_type = EventType.complete →
      (update_stats s e).completed_items = s.completed_items + 1 ∧
      (∀ c, e.data.current_item = some c → (update_stats s e).current_item = "")) ∧
    ((process_events init_stats_map
        (create_start_event PipelineType.tts 10 ::
          List.replicate 10 (create_complete_event PipelineType.tts))
        PipelineType.tts).completed_items = 10 ∧
      (process_events init_stats_map
        (create_start_event PipelineType.tts 10 ::
          List.replicate 10 (create_complete_event PipelineType.tts))
        PipelineType.tts).progress_percentage = 100) := by
  refine ⟨fun s e he => ⟨(update_stats_complete s e he).1, (update_stats_complete s e he).2.2⟩, ?_, ?_⟩
  · decide
  · have h1 : (process_events init_stats_map
        (create_start_event PipelineType.tts 10 ::
          List.replicate 10 (create_complete_event PipelineType.tts))
        PipelineType.tts).completed_items = 10 := by decide
    have h2 : (process_events init_stats_map
        (create_start_event PipelineType.tts 10 ::
          List.replicate 10 (create_complete_event PipelineType.tts))
        PipelineType.tts).total_items = 10 := by decide
    unfold PipelineStats.progress_percentage
    rw [h1, h2]
    norm_num

/-- C8, witness: the additivity part applied to a concrete stats record that
already saw Progress reports, and a concrete Complete event naming the
current item. -/
theorem complete_event_additive_witness :
    (update_stats { completed_items := 5, total_items := 9 }
        (create_complete_event PipelineType.image "pic" 1)).completed_items = 5 + 1 ∧
    (update_stats { completed_items := 5, total_items := 9 }
        (create_complete_event PipelineType.image "pic" 1)).current_item = "" := by
  have h := complete_event_additive.1 { completed_items := 5, total_items := 9 }
    (create_complete_event PipelineType.image "pic" 1) rfl
  exact ⟨h.1, h.2 "pic" rfl⟩

/-! # Claim C10 (progress percentage total and bounded) -/

/-- C10: progress_percentage is total and bounded; it is 0 when totalItems
is 0 (the division is guarded) and never exceeds 100, even when
completedItems exceeds totalItems. -/
theorem progress_percentage_safe (s : PipelineStats) :
    (s.total_items = 0 → s.progress_percentage = 0) ∧
    s.progress_percentage ≤ 100 := by
  constructor
  · intro h
    simp [PipelineStats.progress_percentage, h]
  · unfold PipelineStats.progress_percentage
    split
    · norm_num
    · exact min_le_left _ _

/-- C10, witness: a zero-total stats record reports 0 percent and an
over-complete record stays at most 100 percent. -/
theorem progress_percentage_safe_witness :
    PipelineStats.progress_percentage { total_items := 0, completed_items := 7 } = 0 ∧
    PipelineStats.progress_percentage { total_items := 4, completed_items := 9 } ≤ 100 :=
  ⟨(progress_percentage_safe _).1 rfl, (progress_percentage_safe _).2⟩

/-! # Claim C7 (observer failures are isolated) -/

/-- Delivering a queue distributes over the subscriber list: every
subscriber evolves independently through its own fold over the events. -/
lemma deliver_events_map (es : List ProgressEvent) :
    ∀ subs : List Subscriber,
      deliver_events subs es =
        subs.map (fun sub => es.foldl (fun s e => notify_one e s) sub) := by
  induction es with
  | nil => intro subs; simp [deliver_events]
  | cons e es ih =>
    intro subs
    have h1 : deliver_events subs (e :: es) = deliver_events (notify_subscribers subs e) es := rfl
    rw [h1, ih, notify_subscribers, List.map_map]
    simp [Function.comp]

/-- A subscriber whose callback returns normally on every delivered event
appends exactly the delivered events, in order, to its log. -/
lemma fold_notify_all_ok (es : List ProgressEvent) :
    ∀ sub : Subscriber,
      (∀ e ∈ es, (sub.callback e).isSome = true) →
      (es.foldl (fun s e => notify_one e s) sub).received = sub.received ++ es ∧
      (es.foldl (fun s e => notify_one e s) sub).callback = sub.callback := by
  induction es with
  | nil => intro sub _; simp
  | cons e es ih =>
    intro sub h
    have he : (sub.callback e).isSome = true := h e (List.mem_cons_self _ _)
    have hone : notify_one e sub = { sub with received := sub.received ++ [e] } := by
      unfold notify_one
      cases hc : sub.callback e with
      | none => rw [hc] at he; simp at he
      | some u => rfl
    have hih := ih { sub with received := sub.received ++ [e] }
      (fun x hx => h x (List.mem_cons_of_mem _ hx))
    rw [List.foldl_cons, hone]
    exact ⟨by rw [hih.1]; simp, hih.2⟩

/-- C7: delivering any queue of events never loses a subscriber, and every
subscriber whose callback does not raise on the delivered events receives
all of them in delivery order — independent of any other subscriber
raising, whose exception the bus catches inside its per-callback
try/except. -/
theorem observer_isolation (subs : List Subscriber) (es : List ProgressEvent) :
    (deliver_events subs es).length = subs.length ∧
    ∀ (i : Nat) (hi : i < subs.length),
      (∀ e ∈ es, ((subs.get ⟨i, hi⟩).callback e).isSome = true) →
      ∃ hi2 : i < (deliver_events subs es).length,
        ((deliver_events subs es).get ⟨i, hi2⟩).received =
          (subs.get ⟨i, hi⟩).received ++ es := by
  rw [deliver_events_map]
  constructor
  · simp
  · intro i hi hok
    refine ⟨by simpa using hi, ?_⟩
    rw [List.get_eq_getElem, List.getElem_map]
    exact (fold_notify_all_ok es _ hok).1

/-- Subscriber whose callback raises on every event. -/
def throwing_subscriber : Subscriber := { callback := fun _ => none }

/-- Subscriber whose callback always returns normally. -/
def recording_subscriber : Subscriber := { callback := fun _ => some () }

/-- Three events delivered in the witness scenario. -/
def witness_events : List ProgressEvent :=
  [create_start_event PipelineType.tts 3 "a" 0,
   create_complete_event PipelineType.tts "a" 1,
   create_complete_event PipelineType.tts "b" 2]

/-- C7, witness: with a throwing subscriber registered first, the second
subscriber still receives all three events in order. -/
theorem observer_isolation_witness :
    ∃ hi2 : 1 < (deliver_events [throwing_subscriber, recording_subscriber] witness_events).length,
      ((deliver_events [throwing_subscriber, recording_subscriber] witness_events).get ⟨1, hi2⟩).received =
        (([throwing_subscriber, recording_subscriber].get
            ⟨1, by norm_num⟩).received) ++ witness_events :=
  (observer_isolation [throwing_subscriber, recording_subscriber] witness_events).2 1
    (by norm_num) (fun e _ => rfl)

/-! # Shared lemmas about the degradation state machine -/

/-- The failure counter never decreases across _handle_metal_error. -/
lemma handle_count_mono (s : MState) (e : String) :
    s.metal_error_count ≤ ((handle_metal_error s e).2).metal_error_count := by
  unfold handle_metal_error
  by_cases hm : is_metal_error e <;> simp only [hm, if_true, if_false] <;>
    split_ifs <;> simp

/-- The degradation level is only ever pushed away from 0 by
_handle_metal_error, never back to it. -/
lemma handle_deg_mono (s : MState) (e : String) :
    ((handle_metal_error s e).2).degradation_level = 0 →
    s.degradation_level = 0 := by
  unfold handle_metal_error
  by_cases hm : is_metal_error e <;> simp only [hm, if_true, if_false] <;>
    split_ifs <;> simp

/-- _handle_metal_error leaves max_retries unchanged. -/
lemma handle_retries_eq (s : MState) (e : String) :
    ((handle_metal_error s e).2).max_retries = s.max_retries := by
  unfold handle_metal_error
  by_cases hm : is_metal_error e <;> simp only [hm, if_true, if_false] <;>
    split_ifs <;> simp

/-- A state whose counter and degradation fields only moved forward sits at
a level of at least the old rank. -/
lemma rank_mono_of (s t : MState)
    (hc : s.metal_error_count ≤ t.metal_error_count)
    (hd : t.degradation_level = 0 → s.degradation_level = 0) :
    (level_of s).rank ≤ (level_of t).rank := by
  unfold level_of
  split_ifs <;> simp_all [DegLevel.rank] <;> omega

/-- One _handle_metal_error call never lowers the observable level. -/
lemma rank_handle_mono (s : MState) (e : String) :
    (level_of s).rank ≤ (level_of (handle_metal_error s e).2).rank :=
  rank_mono_of s _ (handle_count_mono s e) (handle_deg_mono s e)

/-- The retry loop never lowers the observable level: every state change it
makes goes through _handle_metal_error. -/
lemma synth_aux_rank_mono (oracle : Nat → Except String Nat) (mr : Nat) :
    ∀ (fuel attempt : Nat) (s : MState),
      (level_of s).rank ≤ (level_of (synth_aux oracle mr fuel attempt s).state).rank := by
  intro fuel
  induction fuel with
  | zero => intro attempt s; simp [synth_aux]
  | succ fuel ih =>
    intro attempt s
    simp only [synth_aux]
    cases hcm : choose_method s attempt <;>
      simp only [hcm] <;>
      first
        | (cases ho : oracle attempt with
            | ok a => simp [ho]
            | error e =>
                simp only [ho]
                rcases hh : handle_metal_error s e with ⟨outc, s1⟩
                have hr : (level_of s).rank ≤ (level_of s1).rank := by
                  have := rank_handle_mono s e
                  rw [hh] at this
                  exact this
                cases outc <;> simp only []
                · exact le_trans hr (ih (attempt + 1) s1)
                · split_ifs
                  · exact hr
                  · exact le_trans hr (ih (attempt + 1) s1)
                · exact hr)
        | (rcases hh : handle_metal_error s "All TTS methods failed" with ⟨outc, s1⟩
           have hr : (level_of s).rank ≤ (level_of s1).rank := by
             have := rank_handle_mono s "All TTS methods failed"
             rw [hh] at this
             exact this
           cases outc <;> simp only []
           · exact le_trans hr (ih (attempt + 1) s1)
           · split_ifs
             · exact hr
             · exact le_trans hr (ih (attempt + 1) s1)
           · exact hr)

/-- One synthesize call never lowers the observable level. -/
lemma synthesize_rank_mono (s : MState) (oracle : Nat → Except String Nat) :
    (level_of s).rank ≤ (level_of (synthesize s oracle).state).rank :=
  synth_aux_rank_mono oracle s.max_retries (s.max_retries + 1) 0 s

/-- The rank of a level determines it. -/
lemma rank_inj : ∀ a b : DegLevel, a.rank = b.rank → a = b := by
  intro a b
  cases a <;> cases b <;> simp [DegLevel.rank]

/-- The observed level sequence of one backend instance is a chain under
the capability order. -/
lemma level_trace_chain (os : List (Nat → Except String Nat)) :
    ∀ s : MState,
      List.Chain' (fun a b : DegLevel => a.rank ≤ b.rank) (level_trace s os) := by
  induction os with
  | nil =>
    intro s
    simp [level_trace, run_synth_calls]
  | cons o os ih =>
    intro s
    have hshape : level_trace s (o :: os) =
        level_of s :: level_trace (synthesize s o).state os := by
      simp [level_trace, run_synth_calls]
    rw [hshape]
    have htail := ih (synthesize s o).state
    have hhead : (level_of s).rank ≤ (level_of (synthesize s o).state).rank :=
      synthesize_rank_mono s o
    cases hlt : level_trace (synthesize s o).state os with
    | nil => simp
    | cons x xs =>
      rw [hlt] at htail
      have hx : x = level_of (synthesize s o).state := by
        have : level_trace (synthesize s o).state os =
            level_of (synthesize s o).state ::
              (run_synth_calls (synthesize s o).state os).map level_of := by
          simp [level_trace]
        rw [this] at hlt
        exact (List.cons.injEq _ _ _ _ ▸ hlt).1.symm
      rw [List.chain'_cons]
      exact ⟨hx ▸ hhead, htail⟩

/-! # Claim C4 (monotonic degradation) -/

/-- C4: over any sequence of synthesize calls with any injected outcomes,
the observed degradation levels form a non-decreasing chain in the order
Primary, SafeFallback, Unavailable, and a level is never revisited after
being left (any two equal observations enclose only equal observations). -/
theorem monotonic_degradation (s : MState) (os : List (Nat → Except String Nat)) :
    List.Chain' (fun a b : DegLevel => a.rank ≤ b.rank) (level_trace s os) ∧
    ∀ (i j k : Fin (level_trace s os).length),
      i ≤ j → j ≤ k →
      (level_trace s os).get i = (level_trace s os).get k →
      (level_trace s os).get j = (level_trace s os).get i := by
  have hchain := level_trace_chain os s
  refine ⟨hchain, ?_⟩
  haveI : IsTrans DegLevel (fun a b : DegLevel => a.rank ≤ b.rank) :=
    ⟨fun _ _ _ h1 h2 => le_trans h1 h2⟩
  have hpair := List.chain'_iff_pairwise.mp hchain
  have hmono : ∀ a b : Fin (level_trace s os).length, a ≤ b →
      ((level_trace s os).get a).rank ≤ ((level_trace s os).get b).rank := by
    intro a b hab
    rcases lt_or_eq_of_le hab with hlt | heq
    · exact List.pairwise_iff_get.mp hpair a b hlt
    · rw [heq]
  intro i j k hij hjk hik
  have h1 := hmono i j hij
  have h2 := hmono j k hjk
  have h3 : ((level_trace s os).get k).rank = ((level_trace s os).get i).rank := by
    rw [hik]
  exact rank_inj _ _ (le_antisymm (h3 ▸ h2) h1)

/-- Oracle that fails with a recognized Metal signature at every attempt. -/
def metal_every_attempt : Nat → Except String Nat :=
  fun _ => Except.error "MTLCommandBuffer failed assertion during commit call"

/-- C4, witness: a fresh MLX backend driven by one synthesize call whose
every attempt hits a Metal fault degrades from Primary to Unavailable, the
observed level trace is a chain, and the no-revisit property holds at the
concrete indices. -/
theorem monotonic_degradation_witness :
    List.Chain' (fun a b : DegLevel => a.rank ≤ b.rank)
      (level_trace (init_mlx_state true) [metal_every_attempt]) ∧
    (level_trace (init_mlx_state true) [metal_every_attempt]).get
        ⟨0, by decide⟩ =
      (level_trace (init_mlx_state true) [metal_every_attempt]).get ⟨0, by decide⟩ := by
  have h := monotonic_degradation (init_mlx_state true) [metal_every_attempt]
  exact ⟨h.1, h.2 ⟨0, by decide⟩ ⟨0, by decide⟩ ⟨0, by decide⟩
    (le_refl _) (le_refl _) rfl⟩

/-! # Claim C3 (degradation threshold) -/

/-- Oracle for the C3 scenario: one recognized hardware fault on the first
attempt, success afterwards. -/
def one_fault_oracle : Nat → Except String Nat := fun i =>
  if i = 0 then Except.error "MTLCommandBuffer failed assertion" else Except.ok 2400

/-- C3, counterexample: after injecting a single recognized fault into a
fresh backend the level is already SafeFallback, not Primary — the
Primary to SafeFallback transition happens on the first recognized fault,
not when a counter reaches 2. -/
theorem degradation_threshold_cex :
    level_of (synthesize (init_mlx_state true) one_fault_oracle).state =
      DegLevel.safeFallback ∧
    (synthesize (init_mlx_state true) one_fault_oracle).result = SynthResult.ok 2400 ∧
    DegLevel.safeFallback ≠ DegLevel.primary := by
  decide

/-- Backend state after one recognized fault on a fresh MLX backend. -/
def s_after_one_fault : MState :=
  (handle_metal_error (init_mlx_state true) "Metal framework assertion").2

/-- Backend state after a second recognized fault. -/
def s_after_two_faults : MState :=
  (handle_metal_error s_after_one_fault "Metal device error").2

/-- Outcome of a third recognized fault. -/
def third_fault : HandleOutcome × MState :=
  handle_metal_error s_after_two_faults "commit call already enqueued"

/-- If the first attempt of a synthesize call succeeds and the state does
not select the raising branch, the call returns that audio and leaves the
backend state untouched. -/
lemma synthesize_first_ok (s : MState) (oracle : Nat → Except String Nat) (a : Nat)
    (h0 : oracle 0 = Except.ok a)
    (hm : choose_method s 0 ≠ SynthMethod.raiseAllFailed) :
    (synthesize s oracle).result = SynthResult.ok a ∧
    (synthesize s oracle).state = s := by
  unfold synthesize
  cases hcm : choose_method s 0 with
  | raiseAllFailed => exact absurd hcm hm
  | mlxAudio => simp [synth_aux, hcm, h0]
  | directKokoro => simp [synth_aux, hcm, h0]

/-- C3, amended: each recognized fault increments the failure counter, the
Primary to SafeFallback transition happens on the first recognized fault
(not the second), the counter threshold that matters is 3 recognized
faults, at which _handle_metal_error raises and the backend becomes
Unavailable; after the first fault all subsequent calls use the
SafeFallback path even with no further faults, leaving the state
unchanged. -/
theorem degradation_first_fault :
    ((handle_metal_error (init_mlx_state true) "Metal framework assertion").1 =
        HandleOutcome.handled ∧
      s_after_one_fault.metal_error_count = 1 ∧
      level_of s_after_one_fault = DegLevel.safeFallback) ∧
    ((handle_metal_error s_after_one_fault "Metal device error").1 =
        HandleOutcome.handled ∧
      s_after_two_faults.metal_error_count = 2 ∧
      level_of s_after_two_faults = DegLevel.safeFallback) ∧
    (third_fault.1 = HandleOutcome.raisedUnavailable ∧
      level_of third_fault.2 = DegLevel.unavailable) ∧
    (∀ attempt : Nat, choose_method s_after_one_fault attempt = SynthMethod.directKokoro) ∧
    (∀ (oracle : Nat → Except String Nat) (a : Nat), oracle 0 = Except.ok a →
      (synthesize s_after_one_fault oracle).result = SynthResult.ok a ∧
      (synthesize s_after_one_fault oracle).state = s_after_one_fault) := by
  refine ⟨by decide, by decide, by decide, ?_, ?_⟩
  · intro attempt
    have hs : s_after_one_fault = ⟨1, 1, false, 3⟩ := by decide
    rw [hs]
    simp [choose_method]
  · intro oracle a h0
    exact synthesize_first_ok s_after_one_fault oracle a h0 (by decide)

/-- C3, witness: a subsequent call with a clean oracle on the degraded
backend succeeds through the SafeFallback path without changing state. -/
theorem degradation_first_fault_witness :
    (synthesize s_after_one_fault (fun _ => Except.ok 999)).result = SynthResult.ok 999 ∧
    (synthesize s_after_one_fault (fun _ => Except.ok 999)).state = s_after_one_fault :=
  degradation_first_fault.2.2.2.2 (fun _ => Except.ok 999) 999 rfl

/-! # Claim C5 (bounded retries and backoff) -/

/-- The loop makes at most as many attempts as it has fuel. -/
lemma synth_aux_attempts_le (oracle : Nat → Except String Nat) (mr : Nat) :
    ∀ (fuel attempt : Nat) (s : MState),
      (synth_aux oracle mr fuel attempt s).attempts_made ≤ fuel := by
  intro fuel
  induction fuel with
  | zero => intro attempt s; simp [synth_aux]
  | succ fuel ih =>
    intro attempt s
    simp only [synth_aux]
    cases hcm : choose_method s attempt <;> simp only [hcm] <;>
      first
        | (cases ho : oracle attempt with
            | ok a => simp
            | error e =>
                simp only [ho]
                rcases hh : handle_metal_error s e with ⟨outc, s1⟩
                cases outc <;> simp only []
                · have := ih (attempt + 1) s1
                  simp
                  omega
                · split_ifs
                  · simp
                  · have := ih (attempt + 1) s1
                    simp
                    omega
                · simp)
        | (rcases hh : handle_metal_error s "All TTS methods failed" with ⟨outc, s1⟩
           cases outc <;> simp only []
           · have := ih (attempt + 1) s1
             simp
             omega
           · split_ifs
             · simp
             · have := ih (attempt + 1) s1
               simp
               omega
           · simp)

/-- Degradation-consumed and plainly failed attempts never outnumber the
attempts made. -/
lemma synth_aux_counts_le (oracle : Nat → Except String Nat) (mr : Nat) :
    ∀ (fuel attempt : Nat) (s : MState),
      (synth_aux oracle mr fuel attempt s).degraded_attempts +
        (synth_aux oracle mr fuel attempt s).plain_failures ≤
        (synth_aux oracle mr fuel attempt s).attempts_made := by
  intro fuel
  induction fuel with
  | zero => intro attempt s; simp [synth_aux]
  | succ fuel ih =>
    intro attempt s
    simp only [synth_aux]
    cases hcm : choose_method s attempt <;> simp only [hcm] <;>
      first
        | (cases ho : oracle attempt with
            | ok a => simp
            | error e =>
                simp only [ho]
                rcases hh : handle_metal_error s e with ⟨outc, s1⟩
                cases outc <;> simp only []
                · have := ih (attempt + 1) s1
                  simp
                  omega
                · split_ifs
                  · simp
                  · have := ih (attempt + 1) s1
                    simp
                    omega
                · simp)
        | (rcases hh : handle_metal_error s "All TTS methods failed" with ⟨outc, s1⟩
           cases outc <;> simp only []
           · have := ih (attempt + 1) s1
             simp
             omega
           · split_ifs
             · simp
             · have := ih (attempt + 1) s1
               simp
               omega
           · simp)

/-- Every recorded backoff is 2 to the power of an attempt index strictly
below max_retries (the final attempt and degradation-handled attempts never
sleep). -/
lemma synth_aux_sleeps (oracle : Nat → Except String Nat) (mr : Nat) :
    ∀ (fuel attempt : Nat) (s : MState),
      attempt + fuel ≤ mr + 1 →
      ∀ x ∈ (synth_aux oracle mr fuel attempt s).sleeps,
        ∃ i, i < mr ∧ x = 2 ^ i := by
  intro fuel
  induction fuel with
  | zero => intro attempt s _; simp [synth_aux]
  | succ fuel ih =>
    intro attempt s hle
    simp only [synth_aux]
    cases hcm : choose_method s attempt <;> simp only [hcm] <;>
      first
        | (cases ho : oracle attempt with
            | ok a => simp
            | error e =>
                simp only [ho]
                rcases hh : handle_metal_error s e with ⟨outc, s1⟩
                cases outc <;> simp only []
                · exact fun x hx => ih (attempt + 1) s1 (by omega) x hx
                · split_ifs with hfin
                  · simp
                  · intro x hx
                    simp only [List.mem_cons] at hx
                    rcases hx with hx | hx
                    · exact ⟨attempt, by omega, hx⟩
                    · exact ih (attempt + 1) s1 (by omega) x hx
                · simp)
        | (rcases hh : handle_metal_error s "All TTS methods failed" with ⟨outc, s1⟩
           cases outc <;> simp only []
           · exact fun x hx => ih (attempt + 1) s1 (by omega) x hx
           · split_ifs with hfin
             · simp
             · intro x hx
               simp only [List.mem_cons] at hx
               rcases hx with hx | hx
               · exact ⟨attempt, by omega, hx⟩
               · exact ih (attempt + 1) s1 (by omega) x hx
           · simp)

/-- Oracle for the C5 counterexample: a recognized hardware fault at attempt
0 and an unrecognized transient error at every later attempt. -/
def degrade_then_transient : Nat → Except String Nat := fun i =>
  if i = 0 then Except.error "Metal framework assertion failure"
  else Except.error "transient backend error"

/-- C5, counterexample: with the default max_retries of 3 and a degradation
transition at attempt 0 followed by persistent transient failures, the call
gives up after 4 issued attempts of which only 3 were non-degradation
attempts — the for loop advanced the attempt index at the degradation
transition, so the transition did consume one of the maxRetries + 1
attempt slots instead of re-issuing the same logical attempt. -/
theorem retry_consumption_cex :
    (synthesize (init_mlx_state true) degrade_then_transient).attempts_made = 4 ∧
    (synthesize (init_mlx_state true) degrade_then_transient).degraded_attempts = 1 ∧
    (synthesize (init_mlx_state true) degrade_then_transient).plain_failures = 3 ∧
    (synthesize (init_mlx_state true) degrade_then_transient).result =
      SynthResult.failedAfter "TTS synthesis failed after 4 attempts: transient backend error" ∧
    (synthesize (init_mlx_state true) degrade_then_transient).plain_failures ≠
      (init_mlx_state true).max_retries + 1 := by
  decide

/-- C5, amended: every synthesize call issues at most maxRetries + 1
synthesis attempts in total, with a backoff of 2 to the power of the
attempt index between failed attempts that are neither degradation-handled
nor final; a degradation transition consumes its attempt slot (the loop
moves on to the next attempt index without sleeping) rather than re-issuing
the same logical attempt at the new level. -/
theorem bounded_retries (s : MState) (oracle : Nat → Except String Nat) :
    (synthesize s oracle).attempts_made ≤ s.max_retries + 1 ∧
    (synthesize s oracle).degraded_attempts + (synthesize s oracle).plain_failures ≤
      (synthesize s oracle).attempts_made ∧
    ∀ x ∈ (synthesize s oracle).sleeps, ∃ i, i < s.max_retries ∧ x = 2 ^ i := by
  refine ⟨synth_aux_attempts_le oracle s.max_retries (s.max_retries + 1) 0 s,
    synth_aux_counts_le oracle s.max_retries (s.max_retries + 1) 0 s,
    synth_aux_sleeps oracle s.max_retries (s.max_retries + 1) 0 s (by omega)⟩

/-- C5, witness: the retry bound, the attempt accounting and the backoff
shape at the concrete run of the counterexample oracle, whose recorded
sleeps are 2 and 4 seconds. -/
theorem bounded_retries_witness :
    (synthesize (init_mlx_state true) degrade_then_transient).attempts_made ≤ 3 + 1 ∧
    (∃ i, i < 3 ∧ 4 = 2 ^ i) := by
  have h := bounded_retries (init_mlx_state true) degrade_then_transient
  refine ⟨h.1, h.2.2 4 ?_⟩
  decide

/-! # Claim C2 (batch conservation) -/

/-- Indexed per-item results of the sequential TTS batch path. -/
lemma finRange_map_image_items (describe : String → String → Except String ImageDescription)
    (image_list : List ImageInfo) :
    (List.finRange image_list.length).map
      (fun i => process_image describe (image_list.get i).file_path
        ((image_list.get i).context.getD "")) =
    image_list.map (fun info => process_image describe info.file_path (info.context.getD "")) := by
  conv_rhs => rw [← List.finRange_map_get image_list]
  rw [List.map_map]
  rfl

/-- C2: both batch runners conserve work items — with an initialized and
enabled pipeline, any run in parallel mode (any pool completion order) or
sequential mode produces exactly one result per input item, the parallel
result list being a permutation of the sequential per-item list, no matter
how many per-item calls fail. -/
theorem batch_conservation
    (preprocess : String → String) (synth : String → Except String Nat)
    (sample_rate : Int) (output_dir output_format : String)
    (force_sequential : Bool) (text_chunks : List Chunk)
    (order : List (Fin text_chunks.length))
    (horder : order.Perm (List.finRange text_chunks.length))
    (describe : String → String → Except String ImageDescription)
    (image_list : List ImageInfo) (iorder : List (Fin image_list.length))
    (hiorder : iorder.Perm (List.finRange image_list.length)) :
    (∀ parallel : Bool,
      (batch_process true force_sequential preprocess synth sample_rate
          output_dir output_format text_chunks parallel order).length =
        text_chunks.length) ∧
    (batch_process true force_sequential preprocess synth sample_rate
        output_dir output_format text_chunks true order).Perm
      (batch_process true force_sequential preprocess synth sample_rate
        output_dir output_format text_chunks false order) ∧
    (batch_process true force_sequential preprocess synth sample_rate
        output_dir output_format text_chunks false order) =
      (List.finRange text_chunks.length).map
        (fun i => batch_item true preprocess synth sample_rate output_dir
          output_format i.val (text_chunks.get i)) ∧
    (∀ parallel : Bool,
      ((batch_process_images true describe image_list parallel
          iorder).descriptions).length = image_list.length) ∧
    ((batch_process_images true describe image_list true iorder).descriptions).Perm
      (image_list.map (fun info =>
        process_image describe info.file_path (info.context.getD ""))) := by
  refine ⟨?_, ?_, ?_, ?_, ?_⟩
  · intro parallel
    simp only [batch_process]
    split_ifs <;>
      simp_all [List.length_map, horder.length_eq, List.length_finRange]
  · by_cases hp : 1 < text_chunks.length ∧ force_sequential = false
    · have hL : batch_process true force_sequential preprocess synth sample_rate
          output_dir output_format text_chunks true order =
          order.map (fun i => batch_item true preprocess synth sample_rate
            output_dir output_format i.val (text_chunks.get i)) := by
        simp [batch_process, hp.1, hp.2]
      have hR : batch_process true force_sequential preprocess synth sample_rate
          output_dir output_format text_chunks false order =
          (List.finRange text_chunks.length).map
            (fun i => batch_item true preprocess synth sample_rate
              output_dir output_format i.val (text_chunks.get i)) := by
        simp [batch_process]
      rw [hL, hR]
      exact horder.map _
    · simp [batch_process, hp]
  · simp [batch_process]
  · intro parallel
    simp only [batch_process_images]
    split_ifs <;>
      simp_all [List.length_map, hiorder.length_eq, List.length_finRange]
  · by_cases hp : 1 < image_list.length
    · have hL : (batch_process_images true describe image_list true iorder).descriptions =
          iorder.map (fun i => process_image describe (image_list.get i).file_path
            ((image_list.get i).context.getD "")) := by
        simp [batch_process_images, hp]
      rw [hL]
      have hperm := hiorder.map (fun i => process_image describe
        (image_list.get i).file_path ((image_list.get i).context.getD ""))
      rw [finRange_map_image_items describe image_list] at hperm
      exact hperm
    · simp [batch_process_images, hp]

/-- Concrete chunks for the C2 witness. -/
def w_chunks : List Chunk := [{ id := some "a", text := "hello" }, { id := none, text := "world" }]

/-- Concrete completion order reversing the submission order. -/
def w_order : List (Fin w_chunks.length) := [⟨1, by decide⟩, ⟨0, by decide⟩]

/-- Concrete images for the C2 witness. -/
def w_images : List ImageInfo :=
  [{ file_path := "a.png" }, { file_path := "b.png", context := some "ctx" }]

/-- Concrete completion order for the image batch. -/
def w_iorder : List (Fin w_images.length) := [⟨1, by decide⟩, ⟨0, by decide⟩]

/-- Synthesis oracle that fails on one of the two chunks. -/
def w_synth : String → Except String Nat := fun t =>
  if t = "hello" then Except.ok 100 else Except.error "boom"

/-- Description oracle that fails on one of the two images. -/
def w_describe : String → String → Except String ImageDescription := fun p c =>
  if p = "a.png" then
    Except.ok { image_path := p, description := "a diagram", context := c, confidence := 1 }
  else Except.error "nope"

/-- C2, witness: a two-chunk TTS batch with one failing item still returns
two results in parallel mode with reversed completion order, and the image
batch result is a permutation of its per-item list. -/
theorem batch_conservation_witness :
    (batch_process true false id w_synth 22050 "out" "wav" w_chunks true w_order).length =
      w_chunks.length ∧
    ((batch_process_images true w_describe w_images true w_iorder).descriptions).Perm
      (w_images.map (fun info =>
        process_image w_describe info.file_path (info.context.getD ""))) :=
  ⟨(batch_conservation id w_synth 22050 "out" "wav" false w_chunks w_order
      (by decide) w_describe w_images w_iorder (by decide)).1 true,
   (batch_conservation id w_synth 22050 "out" "wav" false w_chunks w_order
      (by decide) w_describe w_images w_iorder (by decide)).2.2.2.2⟩

/-! # Claim C6 (extraction failure aborts the run) -/

/-- C6: when extraction fails, process_epub_complete aborts immediately —
the returned PipelineResult carries the failed extraction result with its
error and false success flag, has no TTS results and no image descriptions
populated, and no sub-pipeline task was submitted. -/
theorem extraction_failure_aborts (epub_result : ProcessingResult)
    (hfail : epub_result.success = false)
    (image_pipeline_available tts_pipeline_available enable_tts enable_images : Bool)
    (image_stage : List ImageInfo → StageOutcome (List ImageDescription))
    (tts_stage : List Chapter → StageOutcome (List TTSResult))
    (integrate : ProcessingResult → List ImageDescription → ProcessingResult)
    (ts : ℚ) :
    (process_epub_complete epub_result image_pipeline_available
        tts_pipeline_available enable_tts enable_images image_stage tts_stage
        integrate ts).1.tts_results = none ∧
    (process_epub_complete epub_result image_pipeline_available
        tts_pipeline_available enable_tts enable_images image_stage tts_stage
        integrate ts).1.image_descriptions = none ∧
    (process_epub_complete epub_result image_pipeline_available
        tts_pipeline_available enable_tts enable_images image_stage tts_stage
        integrate ts).1.epub_processing = epub_result ∧
    (process_epub_complete epub_result image_pipeline_available
        tts_pipeline_available enable_tts enable_images image_stage tts_stage
        integrate ts).1.epub_processing.success = false ∧
    (process_epub_complete epub_result image_pipeline_available
        tts_pipeline_available enable_tts enable_images image_stage tts_stage
        integrate ts).2 = [] := by
  simp [process_epub_complete, hfail]

/-- A failed extraction outcome for the C6 witness. -/
def w_failed_extraction : ProcessingResult :=
  { success := false, error_message := some "Invalid EPUB structure" }

/-- C6, witness: with a failing extraction and both stages enabled and
available, the orchestrator returns only the extraction error and submits
no work. -/
theorem extraction_failure_aborts_witness :
    (process_epub_complete w_failed_extraction true true true true
        (fun _ => { success := true, payload := [] })
        (fun _ => { success := true, payload := [] })
        (fun r _ => r) 0).1.tts_results = none ∧
    (process_epub_complete w_failed_extraction true true true true
        (fun _ => { success := true, payload := [] })
        (fun _ => { success := true, payload := [] })
        (fun r _ => r) 0).1.image_descriptions = none ∧
    (process_epub_complete w_failed_extraction true true true true
        (fun _ => { success := true, payload := [] })
        (fun _ => { success := true, payload := [] })
        (fun r _ => r) 0).1.epub_processing = w_failed_extraction ∧
    (process_epub_complete w_failed_extraction true true true true
        (fun _ => { success := true, payload := [] })
        (fun _ => { success := true, payload := [] })
        (fun r _ => r) 0).1.epub_processing.success = false ∧
    (process_epub_complete w_failed_extraction true true true true
        (fun _ => { success := true, payload := [] })
        (fun _ => { success := true, payload := [] })
        (fun r _ => r) 0).2 = [] :=
  extraction_failure_aborts w_failed_extraction rfl true true true true
    (fun _ => { success := true, payload := [] })
    (fun _ => { success := true, payload := [] })
    (fun r _ => r) 0

/-! # Claim C9 (get_stats returns an independent snapshot) -/

/-- Scalar mutations keep the custom_stats reference of the mutated object,
and mutations through one address never touch a different stats address nor
a different dict address. -/
lemma write_stats_frame (hh : Heap) (snap internal : Nat) (o : StatsObj)
    (d : List (String × Int)) (o3 : StatsObj) (hne : snap ≠ internal)
    (h1 : hh.stats_objs internal = some o)
    (h2 : hh.dicts o.custom_ref = some d) :
    (write_stats hh snap o3).stats_objs internal = some o ∧
    (write_stats hh snap o3).dicts o.custom_ref = some d ∧
    (write_stats hh snap o3).stats_objs snap = some o3 := by
  refine ⟨?_, ?_, ?_⟩ <;> simp [write_stats, Ne.symm hne, h1, h2]

/-- Frame property of caller-side mutations: any sequence of mutations
through the snapshot address leaves both the stats object at the tracker
internal address and the dict it references untouched, as long as the
snapshot object points at a different dict. -/
lemma apply_muts_frame (internal snap dref : Nat) (o : StatsObj)
    (d : List (String × Int)) (hne : snap ≠ internal) (hdne : dref ≠ o.custom_ref) :
    ∀ (ops : List MutOp) (hh : Heap),
      hh.stats_objs internal = some o →
      hh.dicts o.custom_ref = some d →
      (∃ o2, hh.stats_objs snap = some o2 ∧ o2.custom_ref = dref) →
      (apply_muts hh snap ops).stats_objs internal = some o ∧
      (apply_muts hh snap ops).dicts o.custom_ref = some d := by
  intro ops
  induction ops with
  | nil => intro hh h1 h2 _; exact ⟨h1, h2⟩
  | cons op ops ih =>
    intro hh h1 h2 hsnap
    obtain ⟨o2, ho2, href⟩ := hsnap
    subst href
    have hstep : (apply_mut hh snap op).stats_objs internal = some o ∧
        (apply_mut hh snap op).dicts o.custom_ref = some d ∧
        (∃ o3, (apply_mut hh snap op).stats_objs snap = some o3 ∧
          o3.custom_ref = o2.custom_ref) := by
      unfold apply_mut
      rw [ho2]
      cases op with
      | set_total n =>
          obtain ⟨a, b, c⟩ := write_stats_frame hh snap internal o d
            { o2 with total_items := n } hne h1 h2
          exact ⟨a, b, ⟨_, c, rfl⟩⟩
      | set_completed n =>
          obtain ⟨a, b, c⟩ := write_stats_frame hh snap internal o d
            { o2 with completed_items := n } hne h1 h2
          exact ⟨a, b, ⟨_, c, rfl⟩⟩
      | set_current c0 =>
          obtain ⟨a, b, c⟩ := write_stats_frame hh snap internal o d
            { o2 with current_item := c0 } hne h1 h2
          exact ⟨a, b, ⟨_, c, rfl⟩⟩
      | set_start t =>
          obtain ⟨a, b, c⟩ := write_stats_frame hh snap internal o d
            { o2 with start_time := t } hne h1 h2
          exact ⟨a, b, ⟨_, c, rfl⟩⟩
      | set_last t =>
          obtain ⟨a, b, c⟩ := write_stats_frame hh snap internal o d
            { o2 with last_update := t } hne h1 h2
          exact ⟨a, b, ⟨_, c, rfl⟩⟩
      | set_errors n =>
          obtain ⟨a, b, c⟩ := write_stats_frame hh snap internal o d
            { o2 with errors := n } hne h1 h2
          exact ⟨a, b, ⟨_, c, rfl⟩⟩
      | set_warnings n =>
          obtain ⟨a, b, c⟩ := write_stats_frame hh snap internal o d
            { o2 with warnings := n } hne h1 h2
          exact ⟨a, b, ⟨_, c, rfl⟩⟩
      | dict_set k v =>
          cases hd2 : hh.dicts o2.custom_ref with
          | none =>
              simp only [hd2]
              exact ⟨h1, h2, ⟨o2, ho2, rfl⟩⟩
          | some d2 =>
              simp only [hd2]
              refine ⟨?_, ?_, ⟨o2, ?_, rfl⟩⟩
              · simpa [write_dict] using h1
              · show (if o.custom_ref = o2.custom_ref then
                    some (dict_update d2 [(k, v)]) else hh.dicts o.custom_ref) = some d
                rw [if_neg (Ne.symm hdne)]
                exact h2
              · simpa [write_dict] using ho2
    exact ih (apply_mut hh snap op) hstep.1 hstep.2.1 hstep.2.2

/-- C9: get_stats hands back a freshly allocated PipelineStats object whose
custom_stats dict is a copy; the snapshot address differs from the tracker
internal address, the snapshot initially carries the same field values, and
no sequence of caller mutations through the snapshot — scalar field writes
or writes into its custom_stats dict — ever changes the tracker internal
stats object or the dict it references. -/
theorem get_stats_snapshot (h : Heap) (internal : Nat) (o : StatsObj)
    (d : List (String × Int))
    (hobj : h.stats_objs internal = some o)
    (hdict : h.dicts o.custom_ref = some d)
    (hlt : internal < h.next_stats)
    (hdlt : o.custom_ref < h.next_dict) :
    ∃ h2 snap, get_stats h internal = some (h2, snap) ∧
      snap ≠ internal ∧
      h2.stats_objs snap = some { o with custom_ref := h.next_dict } ∧
      h2.dicts h.next_dict = some d ∧
      ∀ ops : List MutOp,
        (apply_muts h2 snap ops).stats_objs internal = some o ∧
        (apply_muts h2 snap ops).dicts o.custom_ref = some d := by
  have hne : h.next_stats ≠ internal := (Nat.ne_of_lt hlt).symm
  have hdne : h.next_dict ≠ o.custom_ref := (Nat.ne_of_lt hdlt).symm
  refine ⟨(alloc_stats (alloc_dict h d).1 { o with custom_ref := (alloc_dict h d).2 }).1,
          (alloc_stats (alloc_dict h d).1 { o with custom_ref := (alloc_dict h d).2 }).2,
          ?_, hne, ?_, ?_, ?_⟩
  · simp only [get_stats, hobj, hdict]
  · simp [alloc_stats, alloc_dict]
  · simp [alloc_stats, alloc_dict]
  · intro ops
    have pre1 : (alloc_stats (alloc_dict h d).1
        { o with custom_ref := (alloc_dict h d).2 }).1.stats_objs internal = some o := by
      simp [alloc_stats, alloc_dict, Ne.symm hne, hobj]
    have pre2 : (alloc_stats (alloc_dict h d).1
        { o with custom_ref := (alloc_dict h d).2 }).1.dicts o.custom_ref = some d := by
      simp [alloc_stats, alloc_dict, Ne.symm hdne, hdict]
    have pre3 : ∃ o2, (alloc_stats (alloc_dict h d).1
        { o with custom_ref := (alloc_dict h d).2 }).1.stats_objs h.next_stats = some o2 ∧
        o2.custom_ref = h.next_dict :=
      ⟨{ o with custom_ref := h.next_dict }, by simp [alloc_stats, alloc_dict], rfl⟩
    exact apply_muts_frame internal h.next_stats h.next_dict o d hne hdne ops _ pre1 pre2 pre3

/-- The tracker internal stats object for the C9 witness. -/
def w_internal_obj : StatsObj :=
  { total_items := 5, completed_items := 2, custom_ref := 0 }

/-- A heap with one tracker stats object and its custom dict. -/
def w_heap : Heap :=
  { stats_objs := fun a => if a = 0 then some w_internal_obj else none,
    dicts := fun a => if a = 0 then some [("chunks", 3)] else none,
    next_stats := 1, next_dict := 1 }

/-- C9, witness: a snapshot taken from the concrete heap lives at a fresh
address with a copied dict, and arbitrary mutations of the snapshot leave
the tracker internal object and dict unchanged. -/
theorem get_stats_snapshot_witness :
    ∃ h2 snap, get_stats w_heap 0 = some (h2, snap) ∧
      snap ≠ 0 ∧
      h2.stats_objs snap = some { w_internal_obj with custom_ref := w_heap.next_dict } ∧
      h2.dicts w_heap.next_dict = some [("chunks", 3)] ∧
      ∀ ops : List MutOp,
        (apply_muts h2 snap ops).stats_objs 0 = some w_internal_obj ∧
        (apply_muts h2 snap ops).dicts w_internal_obj.custom_ref = some [("chunks", 3)] :=
  get_stats_snapshot w_heap 0 w_internal_obj [("chunks", 3)] rfl rfl
    (by decide) (by decide)
